import Mathlib

/-
Verification of the AST-input orchestration core of `beast`
(src/beast/tools/run/make_ast_inputs.py).

The development shallowly embeds the orchestration logic:
magnitudes are rationals (the scripts only add, compare and take
percentiles of finite float data), the observed catalog is a column
lookup, the filesystem is the list of existing paths, and each call to
an external collaborator (the SED samplers, the position samplers and
the table reader) is recorded as a `PCall` value carrying the exact
positional and keyword arguments the source passes.
-/

set_option autoImplicit false

deriving instance DecidableEq for Except

namespace Beast

/-- Errors the orchestration script can raise.  `emptyPercentile` models
numpy's fatal IndexError raised by `np.percentile` on an empty array;
`indexError` models writing past the end of the `np.zeros` buffer;
`unboundLocal` models Python's UnboundLocalError for a local variable
referenced before assignment. -/
inductive RunError where
  | emptyPercentile
  | indexError
  | unboundLocal
  deriving DecidableEq, Repr

/-- The observed photometry catalog (`datamodel.get_obscat(...)`): its
filter list, the alias resolution capability `obsdata.data.resolve_alias`,
and column access `obsdata[colname]` returning the magnitudes of that
column (one entry per catalog row). -/
structure ObsCat where
  filters : List String
  resolveAlias : String → String
  col : String → List ℚ

/-- The configuration module `datamodel`, restricted to the parameters
the orchestration core reads. -/
structure DataModel where
  project : String
  filters : List String
  ast_maglimit : List ℚ
  ast_realization_per_model : ℕ
  ast_bands_above_maglimit : ℕ
  ast_n_flux_bins : ℕ
  ast_n_per_flux_bin : ℕ
  ast_models_selected_per_age : ℕ
  ast_with_positions : Bool
  ast_source_density_table : Option String
  ast_background_table : Option String
  ast_N_bins : ℕ
  ast_reference_image : Option String
  ast_coord_boundary : Option String
  ast_pixel_distribution : ℚ
  obsfile : String

/-- Fuel-indexed worker for `pyReplace`: scans the character list left to
right, replacing each non-overlapping occurrence of `pat` by `rep`.  The
fuel is the length of the scanned list, so the `0, l => l` row is never
reached on the intended calls; structural recursion keeps the function
kernel-reducible. -/
def replaceFuel (pat rep : List Char) : ℕ → List Char → List Char
  | _, [] => []
  | 0, l => l
  | fuel + 1, c :: rest =>
    if !pat.isEmpty && pat.isPrefixOf (c :: rest) then
      rep ++ replaceFuel pat rep fuel ((c :: rest).drop pat.length)
    else
      c :: replaceFuel pat rep fuel rest

/-- Python's `str.replace(pattern, replacement)`: replace every
non-overlapping occurrence, scanning left to right.  (For the empty
pattern the original string is returned; the source only replaces the
non-empty patterns "rate" and "RATE".) -/
def pyReplace (s pattern replacement : String) : String :=
  String.mk (replaceFuel pattern.data replacement.data s.data.length s.data)

/-- Lines 55-57 of the source: resolve the catalog column name of a
filter and translate flux-rate naming to magnitude naming,
`sfiltername = obsdata.data.resolve_alias(filtername)` followed by
`.replace("rate", "vega")` and `.replace("RATE", "VEGA")`. -/
def resolveColumn (resolveAlias : String → String) (filtername : String) : String :=
  pyReplace (pyReplace (resolveAlias filtername) "rate" "vega") "RATE" "VEGA"

/-- Line 58 of the source: `keep, = np.where(obsdata[sfiltername] < 99.0)`,
the magnitudes of a column that are below the 99.0 invalid-detection
sentinel. -/
def validMags (obs : ObsCat) (colname : String) : List ℚ :=
  (obs.col colname).filter (fun m => Rat.blt m 99)

/-- Insert a rational into an ascending list, keeping it ascending. -/
def insertAsc (x : ℚ) : List ℚ → List ℚ
  | [] => [x]
  | y :: ys => if Rat.blt y x then y :: insertAsc x ys else x :: y :: ys

/-- Ascending insertion sort on rationals (the ascending rearrangement a
numeric sort produces is unique, so this matches numpy's sort). -/
def sortAsc : List ℚ → List ℚ
  | [] => []
  | x :: xs => insertAsc x (sortAsc xs)

/-- Line 59 of the source: `np.percentile(..., 90.0)` with numpy's default
linear interpolation: the sorted values are sampled at position
`pos = 0.9 * (n - 1)` by interpolating linearly between the entries at
`floor pos` and `floor pos + 1`.  Here `pos` is split exactly into its
integer part `i = 9*(n-1) / 10` and fractional part `fracNum/10` with
`fracNum = 9*(n-1) % 10`, both computed by natural division.
On an empty array numpy raises
(IndexError: cannot do a non-empty take from an empty axes), modeled as
`RunError.emptyPercentile`. -/
def percentile90 (xs : List ℚ) : Except RunError ℚ :=
  match xs with
  | [] => Except.error RunError.emptyPercentile
  | _ :: _ =>
    let s := sortAsc xs
    let n : ℕ := s.length
    let i : ℕ := 9 * (n - 1) / 10
    let fracNum : ℕ := 9 * (n - 1) % 10
    let lo := s.getD i 0
    let hi := s.getD (i + 1) lo
    Except.ok (lo + (mkRat fracNum 10) * (hi - lo))

/-- One iteration of the loop at lines 54-59: the derived 90th-percentile
magnitude of a filter's valid detections. -/
def derivedCut (obs : ObsCat) (filtername : String) : Except RunError ℚ :=
  percentile90 (validMags obs (resolveColumn obs.resolveAlias filtername))

/-- The `for k, filtername in enumerate(obsdata.filters)` loop at lines
54-59, collecting the derived percentile magnitudes in order and
propagating the first failure. -/
def percentileLoop (obs : ObsCat) : List String → Except RunError (List ℚ)
  | [] => Except.ok []
  | f :: rest =>
    match derivedCut obs f with
    | Except.error e => Except.error e
    | Except.ok m =>
      match percentileLoop obs rest with
      | Except.error e => Except.error e
      | Except.ok ms => Except.ok (m :: ms)

/-- Lines 48-62 of the source, the magnitude-cut construction: if the
configured `ast_maglimit` has exactly one entry it is treated as an
offset added onto per-filter derived percentiles (`min_mags` starts as
`np.zeros(len(datamodel.filters))` and index `k` is written per catalog
filter, so writing past its end is an index error and unwritten entries
stay zero); otherwise the configured cuts are used as-is. -/
def resolve_mag_cuts (dm : DataModel) (obs : ObsCat) : Except RunError (List ℚ) :=
  if dm.ast_maglimit.length = 1 then
    if dm.filters.length < obs.filters.length then Except.error RunError.indexError
    else
      match percentileLoop obs obs.filters with
      | Except.error e => Except.error e
      | Except.ok min_mags =>
        Except.ok ((List.range dm.filters.length).map
          (fun k => min_mags.getD k 0 + dm.ast_maglimit.getD 0 0))
  else Except.ok dm.ast_maglimit

/-- Path `./{project}/{project}_inputAST_seds.txt` (line 72). -/
def sedsOutfile (project : String) : String :=
  "./" ++ project ++ "/" ++ project ++ "_inputAST_seds.txt"

/-- Path `./{project}/{project}_ASTparams.fits` (line 73). -/
def paramsOutfile (project : String) : String :=
  "./" ++ project ++ "/" ++ project ++ "_ASTparams.fits"

/-- Path `./{project}/{project}_ASTfluxbins.txt` (line 84). -/
def fluxbinsOutfile (project : String) : String :=
  "./" ++ project ++ "/" ++ project ++ "_ASTfluxbins.txt"

/-- Path `./{project}/{project}_seds.grid.hd5` (line 85). -/
def modelsedgridFilename (project : String) : String :=
  "./" ++ project ++ "/" ++ project ++ "_seds.grid.hd5"

/-- Path `./{project}/{project}_inputAST.txt` (line 130). -/
def astOutfile (project : String) : String :=
  "./" ++ project ++ "/" ++ project ++ "_inputAST.txt"

/-- Where `chosen_seds` came from in a given run: returned by the
stratified sampler, returned by the random sampler, or read back from
the cached SED-list artifact. -/
inductive SedSource where
  | toothpickSample
  | randomSample
  | cachedFile (path : String)
  deriving DecidableEq, Repr

/-- An argument value passed to an external collaborator: the observed
catalog, the chosen SED table, a string (paths, table names), a natural
number, a rational, or an optional string. -/
inductive Arg where
  | cat
  | seds (src : SedSource)
  | str (s : String)
  | strList (l : List String)
  | ratList (l : List ℚ)
  | nat (n : ℕ)
  | rat (q : ℚ)
  | ostr (o : Option String)
  deriving DecidableEq, Repr

/-- A recorded call to an external collaborator: function name,
positional arguments in order, and keyword arguments. -/
structure PCall where
  func : String
  args : List Arg
  kwargs : List (String × Arg)
  deriving DecidableEq, Repr

/-- Lines 120-121 of the source: `Table.read(outfile_seds, format="ascii")`
re-reading the cached SED-list artifact. -/
def readCachedCall (project : String) : PCall :=
  { func := "Table.read"
    args := [Arg.str (sedsOutfile project)]
    kwargs := [("format", Arg.str "ascii")] }

/-- Lines 68-121 of the source, the SED selection stage: if the SED-list
artifact does not already exist, dispatch to `pick_models_toothpick_style`
(flux-bin method) or to `pick_models` (random method); otherwise read the
artifact back.  In the source, `modelsedgrid_filename` is assigned only
inside the flux-bin branch (line 85), so evaluating the `pick_models`
call in the random branch raises UnboundLocalError before the sampler
can be invoked; that is modeled as `RunError.unboundLocal`. -/
def selectSeds (dm : DataModel) (mag_cuts : List ℚ) (fs : List String)
    (flux_bin_method : Bool) : Except RunError (List PCall × SedSource) :=
  if sedsOutfile dm.project ∉ fs then
    if flux_bin_method then
      Except.ok
        ([{ func := "pick_models_toothpick_style"
            args := [Arg.str (modelsedgridFilename dm.project),
                     Arg.strList dm.filters,
                     Arg.ratList mag_cuts,
                     Arg.nat dm.ast_bands_above_maglimit,
                     Arg.nat dm.ast_n_flux_bins,
                     Arg.nat dm.ast_n_per_flux_bin]
            kwargs := [("outfile", Arg.str (sedsOutfile dm.project)),
                       ("outfile_params", Arg.str (paramsOutfile dm.project)),
                       ("bins_outfile", Arg.str (fluxbinsOutfile dm.project))] }],
         SedSource.toothpickSample)
    else
      Except.error RunError.unboundLocal
  else
    Except.ok ([readCachedCall dm.project],
      SedSource.cachedFile (sedsOutfile dm.project))

/-- Lines 133-147 of the source: the `pick_positions_from_map` call of the
source-density branch. -/
def sourceDensityCall (dm : DataModel) (chosen_seds : SedSource)
    (sdTable : String) : PCall :=
  { func := "pick_positions_from_map"
    args := [Arg.cat, Arg.seds chosen_seds, Arg.str sdTable,
             Arg.nat dm.ast_N_bins, Arg.nat dm.ast_realization_per_model]
    kwargs := [("outfile", Arg.str (astOutfile dm.project)),
               ("refimage", Arg.ostr dm.ast_reference_image),
               ("refimage_hdu", Arg.nat 1),
               ("wcs_origin", Arg.nat 1),
               ("Nrealize", Arg.nat 1),
               ("set_coord_boundary", Arg.ostr dm.ast_coord_boundary),
               ("region_from_filters", Arg.str "all")] }

/-- Lines 150-163 of the source: the `pick_positions_from_map` call of the
background branch (same as the source-density branch, without the
`region_from_filters` keyword). -/
def backgroundCall (dm : DataModel) (chosen_seds : SedSource)
    (bgTable : String) : PCall :=
  { func := "pick_positions_from_map"
    args := [Arg.cat, Arg.seds chosen_seds, Arg.str bgTable,
             Arg.nat dm.ast_N_bins, Arg.nat dm.ast_realization_per_model]
    kwargs := [("outfile", Arg.str (astOutfile dm.project)),
               ("refimage", Arg.ostr dm.ast_reference_image),
               ("refimage_hdu", Arg.nat 1),
               ("wcs_origin", Arg.nat 1),
               ("Nrealize", Arg.nat 1),
               ("set_coord_boundary", Arg.ostr dm.ast_coord_boundary)] }

/-- Lines 166-172 of the source: the `pick_positions` call of the
no-auxiliary-map branch; note that `chosen_seds` is not among its
arguments. -/
def catalogPositionsCall (dm : DataModel) : PCall :=
  { func := "pick_positions"
    args := [Arg.cat, Arg.str (astOutfile dm.project),
             Arg.rat dm.ast_pixel_distribution]
    kwargs := [("refimage", Arg.ostr dm.ast_reference_image)] }

/-- Lines 127-172 of the source, the position assignment stage: only run
when `ast_with_positions` is set; first-match priority over the
source-density map, then the background map, then the plain catalog
distribution. -/
def assignPositions (dm : DataModel) (chosen_seds : SedSource) : List PCall :=
  if dm.ast_with_positions then
    match dm.ast_source_density_table with
    | some sdTable => [sourceDensityCall dm chosen_seds sdTable]
    | none =>
      match dm.ast_background_table with
      | some bgTable => [backgroundCall dm chosen_seds bgTable]
      | none => [catalogPositionsCall dm]
  else []

/-- The whole `make_ast_inputs` orchestration (lines 28-173): resolve the
magnitude cuts, select or re-load the SEDs, then assign positions.  The
result is the ordered list of external collaborator calls the run makes,
or the error that aborted it. -/
def make_ast_inputs (dm : DataModel) (obs : ObsCat) (fs : List String)
    (flux_bin_method : Bool) : Except RunError (List PCall) :=
  match resolve_mag_cuts dm obs with
  | Except.error e => Except.error e
  | Except.ok mag_cuts =>
    match selectSeds dm mag_cuts fs flux_bin_method with
    | Except.error e => Except.error e
    | Except.ok sel => Except.ok (sel.1 ++ assignPositions dm sel.2)

/-- Whether a recorded call is one of the two SED sampling strategies. -/
def isSamplerCall (p : PCall) : Bool :=
  p.func == "pick_models_toothpick_style" || p.func == "pick_models"

/-- Whether an argument value is the chosen SED table. -/
def argIsSeds : Arg → Bool
  | Arg.seds _ => true
  | _ => false

/-- Whether a recorded call receives the chosen SED table, positionally
or by keyword. -/
def mentionsChosenSeds (p : PCall) : Bool :=
  p.args.any argIsSeds || (p.kwargs.map Prod.snd).any argIsSeds

/-- A catalog fixture with two filters, identity alias resolution and no
magnitude data (runs built on it use per-filter configured cuts, which
never touch the catalog columns). -/
def obs0 : ObsCat := ⟨["F1", "F2"], fun s => s, fun _ => []⟩

/-- A configuration fixture: two filters with one configured cut per
filter, positions disabled, no auxiliary maps. -/
def dm0 : DataModel :=
  { project := "proj"
    filters := ["F1", "F2"]
    ast_maglimit := [24, 25]
    ast_realization_per_model := 20
    ast_bands_above_maglimit := 3
    ast_n_flux_bins := 40
    ast_n_per_flux_bin := 50
    ast_models_selected_per_age := 70
    ast_with_positions := false
    ast_source_density_table := none
    ast_background_table := none
    ast_N_bins := 5
    ast_reference_image := some "ref.fits"
    ast_coord_boundary := none
    ast_pixel_distribution := 10
    obsfile := "obs.fits" }

/-- A filesystem fixture on which the cached SED-list artifact of
project `proj` exists. -/
def fs0 : List String := [sedsOutfile "proj"]

/-- A filesystem fixture on which both the cached SED-list artifact and
the final manifest of project `proj` exist. -/
def fsC4 : List String := [sedsOutfile "proj", astOutfile "proj"]

/-- `dm0` with positions enabled and both a source-density map and a
background map configured (a contradictory configuration). -/
def dmBoth : DataModel :=
  { dm0 with
    ast_with_positions := true
    ast_source_density_table := some "sd_map.fits"
    ast_background_table := some "bg_map.fits" }

/-- `dm0` with positions enabled and neither auxiliary map configured. -/
def dmNoMap : DataModel :=
  { dm0 with ast_with_positions := true }

/-- A two-filter configuration with a single scalar cut of 2. -/
def dmW1 : DataModel :=
  { dm0 with ast_maglimit := [2] }

/-- A catalog for `dmW1` in which every filter has valid detections
(constant columns, so each 90th percentile equals the column value). -/
def obsW1 : ObsCat :=
  ⟨["F1", "F2"], fun s => s, fun n => if n = "F1" then [20, 20] else [21, 21]⟩

/-- A one-filter configuration with a single scalar cut of 3. -/
def dmC7 : DataModel :=
  { dm0 with filters := ["F1"], ast_maglimit := [3] }

/-- A catalog for `dmC7` whose only column holds no valid detection
(every magnitude is at or above the 99.0 sentinel). -/
def obsC7 : ObsCat := ⟨["F1"], fun s => s, fun _ => [99, 105]⟩

/-- A configuration with exactly one filter and exactly one configured
magnitude-cut value (25). -/
def dmC8 : DataModel :=
  { dm0 with filters := ["F336W"], ast_maglimit := [25] }

/-- A catalog for `dmC8` whose column is constantly 20, so the derived
90th percentile is 20. -/
def obsC8 : ObsCat := ⟨["F336W"], fun s => s, fun _ => [20, 20, 20]⟩

/-- A one-filter configuration with scalar cut 1, for the alias-casing
claim. -/
def dmC9 : DataModel :=
  { dm0 with filters := ["F475W"], ast_maglimit := [1] }

/-- A catalog whose alias resolution yields the mixed-case column name
"F475W_Rate"; only that column holds data, every other column (any
"vega" casing included) is empty. -/
def obsC9 : ObsCat :=
  ⟨["F475W"], fun _ => "F475W_Rate",
   fun n => if n = "F475W_Rate" then [20, 20] else []⟩

/-- The percentile of a non-empty magnitude list is always defined. -/
theorem percentile90_ok_of_ne_nil (xs : List ℚ) (h : xs ≠ []) :
    ∃ v, percentile90 xs = Except.ok v := by
  cases xs with
  | nil => exact absurd rfl h
  | cons a as => exact ⟨_, rfl⟩

/-- When every filter of the list has valid detections, the percentile
loop succeeds and returns, in order, each filter's derived percentile. -/
theorem percentileLoop_spec (obs : ObsCat) :
    ∀ (l : List String),
      (∀ f ∈ l, validMags obs (resolveColumn obs.resolveAlias f) ≠ []) →
      ∃ ms, percentileLoop obs l = Except.ok ms ∧ ms.length = l.length ∧
        ∀ k, k < l.length →
          percentile90 (validMags obs (resolveColumn obs.resolveAlias (l.getD k ""))) =
            Except.ok (ms.getD k 0) := by
  intro l
  induction l with
  | nil =>
    intro _
    exact ⟨[], rfl, rfl, fun k hk => absurd hk (by simp)⟩
  | cons f rest ih =>
    intro h
    obtain ⟨v, hv⟩ :=
      percentile90_ok_of_ne_nil _ (h f (List.mem_cons_self f rest))
    obtain ⟨ms, hms, hlen, hidx⟩ :=
      ih (fun g hg => h g (List.mem_cons_of_mem f hg))
    refine ⟨v :: ms, ?_, by simp [hlen], ?_⟩
    · simp only [percentileLoop, derivedCut, hv, hms]
    · intro k hk
      cases k with
      | zero => simpa using hv
      | succ k0 =>
        have hk0 : k0 < rest.length := by
          simpa [Nat.succ_lt_succ_iff] using hk
        simpa using hidx k0 hk0

/-- If some filter of the list has no valid detections, the percentile
loop aborts with the empty-percentile error. -/
theorem percentileLoop_error_of_empty (obs : ObsCat) :
    ∀ (l : List String),
      (∃ f ∈ l, validMags obs (resolveColumn obs.resolveAlias f) = []) →
      percentileLoop obs l = Except.error RunError.emptyPercentile := by
  intro l
  induction l with
  | nil =>
    rintro ⟨f, hf, -⟩
    simp at hf
  | cons g rest ih =>
    rintro ⟨f, hf, hempty⟩
    by_cases hg : validMags obs (resolveColumn obs.resolveAlias g) = []
    · simp only [percentileLoop, derivedCut, hg, percentile90]
    · obtain ⟨v, hv⟩ := percentile90_ok_of_ne_nil _ hg
      have hfr : f ∈ rest := by
        rcases List.mem_cons.mp hf with h1 | h2
        · subst h1; exact absurd hempty hg
        · exact h2
      simp only [percentileLoop, derivedCut, hv, ih ⟨f, hfr, hempty⟩]

/-- Index evaluation of the broadcast `min_mags + tmp_cuts` map. -/
theorem getD_map_range (n k : ℕ) (g : ℕ → ℚ) (hk : k < n) :
    ((List.range n).map g).getD k 0 = g k := by
  rw [List.getD_eq_getElem?_getD, List.getElem?_map, List.getElem?_range hk]
  rfl

/-- If the cached SED-list artifact exists, the SED selection stage only
reads it back. -/
theorem selectSeds_cached (dm : DataModel) (cuts : List ℚ) (fs : List String)
    (m : Bool) (hcache : sedsOutfile dm.project ∈ fs) :
    selectSeds dm cuts fs m =
      Except.ok ([readCachedCall dm.project],
        SedSource.cachedFile (sedsOutfile dm.project)) := by
  unfold selectSeds
  simp [hcache]

/-- A run whose magnitude cuts resolve and whose SED-list artifact is
cached performs the cache read followed by the position stage. -/
theorem make_cached (dm : DataModel) (obs : ObsCat) (fs : List String)
    (m : Bool) (cuts : List ℚ)
    (hok : resolve_mag_cuts dm obs = Except.ok cuts)
    (hcache : sedsOutfile dm.project ∈ fs) :
    make_ast_inputs dm obs fs m =
      Except.ok (readCachedCall dm.project ::
        assignPositions dm (SedSource.cachedFile (sedsOutfile dm.project))) := by
  simp only [make_ast_inputs, hok, selectSeds_cached dm cuts fs m hcache,
    List.singleton_append]

/-- The position stage only ever emits position-sampler calls. -/
theorem assignPositions_func (dm : DataModel) (ch : SedSource) :
    ∀ p ∈ assignPositions dm ch,
      p.func = "pick_positions_from_map" ∨ p.func = "pick_positions" := by
  intro p hp
  unfold assignPositions at hp
  cases hwp : dm.ast_with_positions <;> rw [hwp] at hp
  · simp at hp
  · cases hsd : dm.ast_source_density_table <;> rw [hsd] at hp
    · cases hbg : dm.ast_background_table <;> rw [hbg] at hp
      · simp at hp; subst hp; exact Or.inr rfl
      · simp at hp; subst hp; exact Or.inl rfl
    · simp at hp; subst hp; exact Or.inl rfl

/-- With positions enabled, the position stage emits exactly one
position-sampler call. -/
theorem assignPositions_singleton (dm : DataModel) (ch : SedSource)
    (hpos : dm.ast_with_positions = true) :
    ∃ p, assignPositions dm ch = [p] ∧
      (p.func = "pick_positions_from_map" ∨ p.func = "pick_positions") := by
  unfold assignPositions
  rw [hpos]
  cases hsd : dm.ast_source_density_table with
  | none =>
    cases hbg : dm.ast_background_table with
    | none => exact ⟨catalogPositionsCall dm, by simp, Or.inr rfl⟩
    | some bg => exact ⟨backgroundCall dm ch bg, by simp, Or.inl rfl⟩
  | some sd => exact ⟨sourceDensityCall dm ch sd, by simp, Or.inl rfl⟩

/-- C1: for every configuration whose magnitude-cut specification is a
single scalar value `c` and every observation catalog (over the
configured filter list) in which each configured filter has at least one
valid detection (magnitude below 99.0), the resolved magnitude-cut
vector has exactly `len(filters)` entries, in the order of the
configured filter list, and the entry of each filter is the 90th
percentile of that filter's valid magnitudes plus `c`. -/
theorem scalar_cut_resolves_to_p90_plus_offset (dm : DataModel)
    (obs : ObsCat) (c : ℚ)
    (hcut : dm.ast_maglimit = [c]) (hfilt : obs.filters = dm.filters)
    (hvalid : ∀ f ∈ dm.filters,
      validMags obs (resolveColumn obs.resolveAlias f) ≠ []) :
    ∃ cuts, resolve_mag_cuts dm obs = Except.ok cuts ∧
      cuts.length = dm.filters.length ∧
      ∀ k, k < dm.filters.length →
        ∃ p, percentile90
              (validMags obs
                (resolveColumn obs.resolveAlias (dm.filters.getD k ""))) =
            Except.ok p ∧
          cuts.getD k 0 = p + c := by
  obtain ⟨ms, hms, hlen, hidx⟩ := percentileLoop_spec obs dm.filters hvalid
  refine ⟨(List.range dm.filters.length).map (fun k => ms.getD k 0 + c),
    ?_, by simp, ?_⟩
  · unfold resolve_mag_cuts
    rw [hcut, hfilt]
    simp [hms]
  · intro k hk
    exact ⟨ms.getD k 0, hidx k hk, getD_map_range _ _ _ hk⟩

/-- C1 witness: the theorem applied to a concrete two-filter catalog
with valid detections in both filters and scalar cut 2. -/
theorem scalar_cut_resolves_witness :
    ∃ cuts, resolve_mag_cuts dmW1 obsW1 = Except.ok cuts ∧
      cuts.length = dmW1.filters.length ∧
      ∀ k, k < dmW1.filters.length →
        ∃ p, percentile90
              (validMags obsW1
                (resolveColumn obsW1.resolveAlias (dmW1.filters.getD k ""))) =
            Except.ok p ∧
          cuts.getD k 0 = p + 2 :=
  scalar_cut_resolves_to_p90_plus_offset dmW1 obsW1 2 rfl rfl (by decide)

/-- C7: with a single scalar cut, if some configured filter has zero
valid detections (every magnitude at or above the 99.0 sentinel), the
magnitude-cut resolution aborts with the empty-percentile error raised
by the percentile call — it does not return a cut vector. -/
theorem scalar_cut_empty_filter_raises (dm : DataModel) (obs : ObsCat)
    (c : ℚ) (f : String)
    (hcut : dm.ast_maglimit = [c]) (hfilt : obs.filters = dm.filters)
    (hf : f ∈ dm.filters)
    (hempty : validMags obs (resolveColumn obs.resolveAlias f) = []) :
    resolve_mag_cuts dm obs = Except.error RunError.emptyPercentile := by
  unfold resolve_mag_cuts
  rw [hcut, hfilt]
  simp [percentileLoop_error_of_empty obs dm.filters ⟨f, hf, hempty⟩]

/-- C7 witness: the theorem applied to a one-filter catalog whose only
column holds magnitudes 99 and 105, both invalid. -/
theorem scalar_cut_empty_filter_witness :
    resolve_mag_cuts dmC7 obsC7 = Except.error RunError.emptyPercentile :=
  scalar_cut_empty_filter_raises dmC7 obsC7 3 "F1" rfl rfl (by decide)
    (by decide)

/-- C8 counterexample: with exactly one filter and exactly one supplied
cut value (a vector of length `len(filters)` = 1), the resolver does NOT
pass the vector through: the single value 25 is treated as a scalar
offset, the catalog percentile (20) is derived, and the resolved vector
is [45], not the configured [25]. -/
theorem single_filter_vector_not_passed_through :
    dmC8.ast_maglimit.length = dmC8.filters.length ∧
    resolve_mag_cuts dmC8 obsC8 = Except.ok [45] ∧
    resolve_mag_cuts dmC8 obsC8 ≠ Except.ok dmC8.ast_maglimit := by
  have h1 : validMags obsC8 (resolveColumn obsC8.resolveAlias "F336W") =
      [20, 20, 20] := rfl
  have h2 : percentile90 [(20 : ℚ), 20, 20] = Except.ok 20 := by
    norm_num [percentile90, sortAsc, insertAsc,
      show Rat.blt (20 : ℚ) 20 = false from rfl,
      Rat.mkRat_eq_divInt, Rat.divInt_eq_div]
  have h3 : percentileLoop obsC8 ["F336W"] = Except.ok [20] := by
    simp [percentileLoop, derivedCut, h1, h2]
  have h4 : obsC8.filters = ["F336W"] := rfl
  have h5 : resolve_mag_cuts dmC8 obsC8 = Except.ok [45] := by
    norm_num [resolve_mag_cuts, h4, h3, dmC8,
      show List.range 1 = [0] from rfl]
  refine ⟨rfl, h5, ?_⟩
  rw [h5]
  exact fun heq => absurd heq (by decide)

/-- C8 (amended): a configured cut vector of one value per filter is
passed through unchanged whenever its length is not 1 — i.e. for every
filter list of length at least 2; with exactly one filter the single
configured value is instead treated as a scalar offset. -/
theorem per_filter_cuts_pass_through (dm : DataModel) (obs : ObsCat)
    (hlen : dm.ast_maglimit.length = dm.filters.length)
    (hne : dm.filters.length ≠ 1) :
    resolve_mag_cuts dm obs = Except.ok dm.ast_maglimit := by
  unfold resolve_mag_cuts
  rw [if_neg]
  rw [hlen]
  exact hne

/-- C8 (amended) witness: a two-filter configuration with two configured
cuts is passed through unchanged. -/
theorem per_filter_cuts_pass_through_witness :
    resolve_mag_cuts dm0 obs0 = Except.ok dm0.ast_maglimit :=
  per_filter_cuts_pass_through dm0 obs0 rfl (by decide)

/-- C9 counterexample: a filter whose alias-resolved catalog column name
is the mixed-case "F475W_Rate" is NOT translated to magnitude naming:
the resolver leaves the name unchanged and derives the cut from the
"F475W_Rate" column itself (the only non-empty column of the catalog —
every "vega"-cased column is empty, so a translated lookup could not
have produced a defined percentile). -/
theorem mixed_case_rate_untranslated :
    resolveColumn obsC9.resolveAlias "F475W" = "F475W_Rate" ∧
    validMags obsC9 "F475W_Rate" = [20, 20] ∧
    validMags obsC9 "F475W_vega" = [] ∧
    validMags obsC9 "F475W_VEGA" = [] ∧
    validMags obsC9 "F475W_Vega" = [] ∧
    resolve_mag_cuts dmC9 obsC9 = Except.ok [21] := by
  refine ⟨rfl, rfl, rfl, rfl, rfl, ?_⟩
  have h1 : validMags obsC9 (resolveColumn obsC9.resolveAlias "F475W") =
      [20, 20] := rfl
  have h2 : percentile90 [(20 : ℚ), 20] = Except.ok 20 := by
    norm_num [percentile90, sortAsc, insertAsc,
      show Rat.blt (20 : ℚ) 20 = false from rfl,
      Rat.mkRat_eq_divInt, Rat.divInt_eq_div]
  have h3 : percentileLoop obsC9 ["F475W"] = Except.ok [20] := by
    simp [percentileLoop, derivedCut, h1, h2]
  have h4 : obsC9.filters = ["F475W"] := rfl
  norm_num [resolve_mag_cuts, h4, h3, dmC9,
    show List.range 1 = [0] from rfl]

/-- C9 (amended): the column-name translation replaces only the
exact-case tokens "rate" (by "vega") and "RATE" (by "VEGA"); mixed-case
variants of the flux-rate token are left untranslated. -/
theorem rate_token_exact_case_only :
    resolveColumn id "F475W_rate" = "F475W_vega" ∧
    resolveColumn id "F475W_RATE" = "F475W_VEGA" ∧
    resolveColumn id "F475W_Rate" = "F475W_Rate" ∧
    resolveColumn id "F475W_rAtE" = "F475W_rAtE" :=
  ⟨rfl, rfl, rfl, rfl⟩

/-- C2: whenever the project-namespaced SED-list artifact already exists,
a run that reaches the SED selection stage loads the chosen SED set by
reading that file, and no call of the run — whatever the configured
selection method `m` — is to either SED sampler. -/
theorem cache_hit_skips_samplers (dm : DataModel) (obs : ObsCat)
    (fs : List String) (m : Bool) (cuts : List ℚ)
    (hok : resolve_mag_cuts dm obs = Except.ok cuts)
    (hcache : sedsOutfile dm.project ∈ fs) :
    ∃ rest, make_ast_inputs dm obs fs m =
        Except.ok (readCachedCall dm.project :: rest) ∧
      ∀ p ∈ readCachedCall dm.project :: rest, isSamplerCall p = false := by
  refine ⟨_, make_cached dm obs fs m cuts hok hcache, ?_⟩
  intro p hp
  rcases List.mem_cons.mp hp with h | h
  · subst h; rfl
  · rcases assignPositions_func dm _ p h with h1 | h1 <;>
      simp [isSamplerCall, h1]

/-- C2 witness: the theorem applied to a cached run of project `proj`
with the flux-bin method configured. -/
theorem cache_hit_skips_samplers_witness :
    ∃ rest, make_ast_inputs dm0 obs0 fs0 true =
        Except.ok (readCachedCall dm0.project :: rest) ∧
      ∀ p ∈ readCachedCall dm0.project :: rest, isSamplerCall p = false :=
  cache_hit_skips_samplers dm0 obs0 fs0 true [24, 25] rfl (by decide)

/-- C3: when the SED-list artifact is absent and the random (non
flux-bin) method is chosen, the run does NOT successfully invoke the
random sampler: it aborts with Python's UnboundLocalError, because
`modelsedgrid_filename` is assigned only inside the flux-bin branch of
the source. -/
theorem random_branch_unbound_grid_path (dm : DataModel) (obs : ObsCat)
    (fs : List String) (cuts : List ℚ)
    (hok : resolve_mag_cuts dm obs = Except.ok cuts)
    (habsent : sedsOutfile dm.project ∉ fs) :
    make_ast_inputs dm obs fs false = Except.error RunError.unboundLocal := by
  have hsel : selectSeds dm cuts fs false =
      Except.error RunError.unboundLocal := by
    unfold selectSeds
    simp [habsent]
  simp only [make_ast_inputs, hok, hsel]

/-- C3 witness: the theorem applied to a fresh run (empty filesystem)
with the random method. -/
theorem random_branch_unbound_witness :
    make_ast_inputs dm0 obs0 [] false = Except.error RunError.unboundLocal :=
  random_branch_unbound_grid_path dm0 obs0 [] [24, 25] rfl (by decide)

/-- C4 counterexample: a re-run on which every artifact (the SED list
and the final manifest) already exists still re-executes the position
stage: the trace contains a `pick_positions` call whose positional
arguments include the already-existing manifest path, so the stage
recomputes and rewrites its artifact instead of being guarded by a
file-existence check. -/
theorem position_stage_reruns_counterexample :
    astOutfile "proj" ∈ fsC4 ∧
    sedsOutfile "proj" ∈ fsC4 ∧
    make_ast_inputs dmNoMap obs0 fsC4 true =
      Except.ok [readCachedCall "proj", catalogPositionsCall dmNoMap] ∧
    Arg.str (astOutfile "proj") ∈ (catalogPositionsCall dmNoMap).args := by
  exact ⟨by decide, by decide, rfl, by decide⟩

/-- C4 (amended): only the SED selection stage is guarded by a
file-existence check: with the SED-list artifact cached the run performs
no sampling (its first call is the cache read, no call is a sampler),
but when positions are enabled the position stage unconditionally emits
exactly one position-sampler call — whatever the state of the
filesystem, in particular even when the output manifest already
exists. -/
theorem only_sed_stage_guarded (dm : DataModel) (obs : ObsCat)
    (fs : List String) (m : Bool) (cuts : List ℚ)
    (hok : resolve_mag_cuts dm obs = Except.ok cuts)
    (hcache : sedsOutfile dm.project ∈ fs)
    (hpos : dm.ast_with_positions = true) :
    ∃ p, make_ast_inputs dm obs fs m =
        Except.ok [readCachedCall dm.project, p] ∧
      isSamplerCall (readCachedCall dm.project) = false ∧
      isSamplerCall p = false ∧
      (p.func = "pick_positions_from_map" ∨ p.func = "pick_positions") := by
  obtain ⟨p, hp, hfunc⟩ := assignPositions_singleton dm
    (SedSource.cachedFile (sedsOutfile dm.project)) hpos
  refine ⟨p, ?_, rfl, ?_, hfunc⟩
  · rw [make_cached dm obs fs m cuts hok hcache, hp]
  · rcases hfunc with h | h <;> simp [isSamplerCall, h]

/-- C4 (amended) witness: the theorem applied to a run on which both the
SED list and the manifest already exist. -/
theorem only_sed_stage_guarded_witness :
    ∃ p, make_ast_inputs dmNoMap obs0 fsC4 true =
        Except.ok [readCachedCall dmNoMap.project, p] ∧
      isSamplerCall (readCachedCall dmNoMap.project) = false ∧
      isSamplerCall p = false ∧
      (p.func = "pick_positions_from_map" ∨ p.func = "pick_positions") :=
  only_sed_stage_guarded dmNoMap obs0 fsC4 true [24, 25] rfl (by decide) rfl

/-- C5: with positions enabled and BOTH a source-density map and a
background map configured, the run succeeds (no validation error is
raised for the contradictory configuration) and the position call is the
source-density one — branch 1 wins over branch 2. -/
theorem both_maps_source_density_wins (dm : DataModel) (obs : ObsCat)
    (fs : List String) (m : Bool) (cuts : List ℚ) (sd bg : String)
    (hok : resolve_mag_cuts dm obs = Except.ok cuts)
    (hcache : sedsOutfile dm.project ∈ fs)
    (hpos : dm.ast_with_positions = true)
    (hsd : dm.ast_source_density_table = some sd)
    (hbg : dm.ast_background_table = some bg) :
    make_ast_inputs dm obs fs m =
      Except.ok [readCachedCall dm.project,
        sourceDensityCall dm (SedSource.cachedFile (sedsOutfile dm.project)) sd] := by
  rw [make_cached dm obs fs m cuts hok hcache]
  unfold assignPositions
  rw [hpos, hsd]
  simp

/-- C5 witness: the theorem applied to a configuration with both
`sd_map.fits` and `bg_map.fits` configured. -/
theorem both_maps_source_density_wins_witness :
    make_ast_inputs dmBoth obs0 fs0 true =
      Except.ok [readCachedCall dmBoth.project,
        sourceDensityCall dmBoth
          (SedSource.cachedFile (sedsOutfile dmBoth.project)) "sd_map.fits"] :=
  both_maps_source_density_wins dmBoth obs0 fs0 true [24, 25]
    "sd_map.fits" "bg_map.fits" rfl (by decide) rfl rfl rfl

/-- C6 counterexample: with positions enabled and no auxiliary map, the
catalog branch invokes `pick_positions` — but the chosen SED set is NOT
among the inputs it passes to the sampler (no argument, positional or
keyword, carries the SED table). -/
theorem catalog_branch_omits_seds_counterexample :
    make_ast_inputs dmNoMap obs0 fs0 true =
      Except.ok [readCachedCall "proj", catalogPositionsCall dmNoMap] ∧
    (catalogPositionsCall dmNoMap).func = "pick_positions" ∧
    mentionsChosenSeds (catalogPositionsCall dmNoMap) = false :=
  ⟨rfl, rfl, rfl⟩

/-- C6 (amended): with positions enabled and neither a source-density
map nor a background map configured, the run invokes the catalog-based
`pick_positions` sampler with the observed catalog, the output manifest
path, the configured pixel-distribution parameter and the reference
image — and the chosen SED set is not among the arguments provided. -/
theorem catalog_branch_inputs (dm : DataModel) (obs : ObsCat)
    (fs : List String) (m : Bool) (cuts : List ℚ)
    (hok : resolve_mag_cuts dm obs = Except.ok cuts)
    (hcache : sedsOutfile dm.project ∈ fs)
    (hpos : dm.ast_with_positions = true)
    (hsd : dm.ast_source_density_table = none)
    (hbg : dm.ast_background_table = none) :
    make_ast_inputs dm obs fs m =
      Except.ok [readCachedCall dm.project, catalogPositionsCall dm] ∧
    mentionsChosenSeds (catalogPositionsCall dm) = false := by
  constructor
  · rw [make_cached dm obs fs m cuts hok hcache]
    unfold assignPositions
    rw [hpos, hsd, hbg]
    simp
  · rfl

/-- C6 (amended) witness: the theorem applied to a cached run with no
map configured. -/
theorem catalog_branch_inputs_witness :
    make_ast_inputs dmNoMap obs0 fs0 true =
      Except.ok [readCachedCall dmNoMap.project, catalogPositionsCall dmNoMap] ∧
    mentionsChosenSeds (catalogPositionsCall dmNoMap) = false :=
  catalog_branch_inputs dmNoMap obs0 fs0 true [24, 25] rfl (by decide)
    rfl rfl rfl

/-- C10: with positions enabled and a source-density map or a background
map configured, the map branch calls `pick_positions_from_map` with the
keyword argument Nrealize fixed to the constant 1 (independent of the
configured realizations per model, which is passed separately as the
fifth positional argument), and with the reference-image HDU index and
the WCS origin both hard-coded to 1. -/
theorem map_branch_hardcodes_nrealize_one (dm : DataModel) (obs : ObsCat)
    (fs : List String) (m : Bool) (cuts : List ℚ)
    (hok : resolve_mag_cuts dm obs = Except.ok cuts)
    (hcache : sedsOutfile dm.project ∈ fs)
    (hpos : dm.ast_with_positions = true)
    (hmap : dm.ast_source_density_table ≠ none ∨
      dm.ast_background_table ≠ none) :
    ∃ p, make_ast_inputs dm obs fs m =
        Except.ok [readCachedCall dm.project, p] ∧
      p.func = "pick_positions_from_map" ∧
      ("Nrealize", Arg.nat 1) ∈ p.kwargs ∧
      ("refimage_hdu", Arg.nat 1) ∈ p.kwargs ∧
      ("wcs_origin", Arg.nat 1) ∈ p.kwargs ∧
      p.args.getD 4 Arg.cat = Arg.nat dm.ast_realization_per_model := by
  rw [make_cached dm obs fs m cuts hok hcache]
  cases hsd : dm.ast_source_density_table with
  | some sd =>
    refine ⟨sourceDensityCall dm
        (SedSource.cachedFile (sedsOutfile dm.project)) sd,
      ?_, rfl, ?_, ?_, ?_, rfl⟩
    · unfold assignPositions
      rw [hpos, hsd]
      simp
    · simp [sourceDensityCall]
    · simp [sourceDensityCall]
    · simp [sourceDensityCall]
  | none =>
    cases hbg : dm.ast_background_table with
    | some bg =>
      refine ⟨backgroundCall dm
          (SedSource.cachedFile (sedsOutfile dm.project)) bg,
        ?_, rfl, ?_, ?_, ?_, rfl⟩
      · unfold assignPositions
        rw [hpos, hsd, hbg]
        simp
      · simp [backgroundCall]
      · simp [backgroundCall]
      · simp [backgroundCall]
    | none =>
      rcases hmap with h | h
      · exact absurd hsd h
      · exact absurd hbg h

/-- C10 witness: the theorem applied to the contradictory two-map
configuration (which takes the source-density branch). -/
theorem map_branch_hardcodes_witness :
    ∃ p, make_ast_inputs dmBoth obs0 fs0 true =
        Except.ok [readCachedCall dmBoth.project, p] ∧
      p.func = "pick_positions_from_map" ∧
      ("Nrealize", Arg.nat 1) ∈ p.kwargs ∧
      ("refimage_hdu", Arg.nat 1) ∈ p.kwargs ∧
      ("wcs_origin", Arg.nat 1) ∈ p.kwargs ∧
      p.args.getD 4 Arg.cat = Arg.nat dmBoth.ast_realization_per_model :=
  map_branch_hardcodes_nrealize_one dmBoth obs0 fs0 true [24, 25] rfl
    (by decide) rfl (Or.inl (by decide))

end Beast
